import Mathlib

/-!
Verification of the SCMI SMC/HVC transport driver
(drivers/firmware/arm_scmi/smc.c).

The driver is embedded shallowly:

* `scmi_smc` and `scmi_chan_info` mirror the C structures; the upper
  channel is identified by an abstract handle (a natural number) and its
  `transport_info` pointer is an `Option scmi_smc`.
* The process-wide conduit function pointer `invoke_scmi_smc_fn` is an
  `Option ConduitFn` threaded explicitly through the operations that
  touch it.
* External collaborators (device-tree reads, ioremap, the shared-memory
  peer primitives and the privileged-call instruction itself) are
  oracles supplied in environment records (`SetupEnv`, `Env`); shared
  memory is an abstract state token (a natural number) transformed by
  the oracles.
* Every call the driver makes into a collaborator is recorded in an
  `Event` trace, so that claims about which externals run (and with
  which arguments) are statable.
* Machine integers: the conduit returns an unsigned register-width
  (64-bit) value, modelled as a natural number; the C conversion of
  that value to the 32-bit `int ret` in `smc_send_message` is
  `toSigned32` (reduction modulo 2^32, then signed reinterpretation).
-/

namespace ScmiSmc

/-- Linux errno value ENXIO (no such device or address). -/
def ENXIO : Int := 6

/-- Linux errno value ENOMEM (out of memory). -/
def ENOMEM : Int := 12

/-- Linux errno value ENODEV (no such device). -/
def ENODEV : Int := 19

/-- Linux errno value EINVAL (invalid argument). -/
def EINVAL : Int := 22

/-- Linux errno value EADDRNOTAVAIL (address not available). -/
def EADDRNOTAVAIL : Int := 99

/-- C conversion of an unsigned register-width value to the 32-bit
signed type int: reduce modulo 2^32 and reinterpret the top bit as the
sign (the conversion performed by the assignment to int ret in
smc_send_message). -/
def toSigned32 (n : Nat) : Int :=
  let m : Nat := n % 2 ^ 32
  if m < 2 ^ 31 then (m : Int) else (m : Int) - 2 ^ 32

/-- Interpretation of an unsigned 64-bit register value as a signed
64-bit value (two's complement). -/
def toSigned64 (n : Nat) : Int :=
  let m : Nat := n % 2 ^ 64
  if m < 2 ^ 63 then (m : Int) else (m : Int) - 2 ^ 64

/-- C conversion of an int to the unsigned register-width type
unsigned long (64-bit): reduction modulo 2^64. -/
def intToULong (i : Int) : Nat := (i % (2 ^ 64 : Int)).toNat

/-- The two possible values of the process-wide conduit function
pointer invoke_scmi_smc_fn: the hypervisor-call and the
secure-monitor-call invocation routines. -/
inductive ConduitFn where
  | hvc
  | smc
deriving DecidableEq, Repr

/-- struct scmi_smc: the per-channel transport state. cinfo is the
back-reference to the upper channel (none models a NULL pointer),
shmem the mapped shared-memory view, func_id the smc/hvc call function
id (u32) and prot_id the protocol id (C int). -/
structure scmi_smc where
  cinfo : Option Nat
  shmem : Nat
  func_id : Nat
  prot_id : Int
deriving DecidableEq, Repr

/-- struct scmi_chan_info as seen by this driver: an identifying
handle for the upper channel object and its transport_info pointer. -/
structure scmi_chan_info where
  handle : Nat
  transport_info : Option scmi_smc
deriving DecidableEq, Repr

/-- One call made by the driver into an external collaborator. -/
inductive Event where
  | allocChan
  | parseShmemPhandle
  | addrToResource
  | ioremapCall
  | readSmcId
  | findPsci
  | resolveConduit
  | txPrepare (xfer : Nat)
  | conduitCall (args : List Nat)
  | rxCallback (cinfo : Option Nat) (header : Nat)
  | fetchResp (xfer : Nat)
  | pollCall (xfer : Nat)
  | freeChannel (cinfo : Nat) (data : Nat) (id : Int)
deriving DecidableEq, Repr

/-- Whether an event is an invocation of scmi_rx_callback. -/
def Event.isRx : Event → Bool
  | .rxCallback _ _ => true
  | _ => false

/-- Whether an event is an invocation of the conduit. -/
def Event.isConduit : Event → Bool
  | .conduitCall _ => true
  | _ => false

/-- A device-tree node as consulted by smc_chan_setup: the result of
of_parse_phandle(node, "shmem", 0) (none models NULL) and the result of
of_property_read_u32(node, "smc-id", &func_id), given as the returned
status together with the value stored through the out-parameter. -/
structure OfNode where
  shmem : Option Nat
  smc_id : Int × Nat

/-- Oracles for the externals consulted during smc_chan_setup:
devm_kzalloc success, the two device-tree nodes (the upper channel's
device node cdev->of_node and the transport device's node
dev->of_node), of_address_to_resource (status and (start, size)),
devm_ioremap (none models NULL), and the /psci node (outer none: node
absent; inner option: its "method" string property). -/
structure SetupEnv where
  alloc_ok : Bool
  cdev_node : OfNode
  dev_node : OfNode
  addr_to_resource : Option Nat → Int × (Nat × Nat)
  ioremap : Nat → Nat → Option Nat
  psci : Option (Option String)

/-- Oracles for the externals used by the running channel: the
shared-memory peer primitives shmem_tx_prepare, shmem_read_header,
shmem_fetch_response and shmem_poll_done (each taking the channel's
shmem view and the abstract memory state), and the installed conduit
invocation, taking the eight register arguments plus the memory state
and returning the first result register together with the memory state
after the firmware ran. -/
structure Env where
  tx_prepare : Nat → Nat → Nat → Nat
  conduit : Nat → Nat → Nat → Nat → Nat → Nat → Nat → Nat → Nat → Nat × Nat
  read_header : Nat → Nat → Nat
  fetch_response : Nat → Nat → Nat → Nat
  poll_done : Nat → Nat → Nat → Bool

/-- smc_chan_available: unconditionally true. -/
def smc_chan_available (dev : Nat) (idx : Int) : Bool := true

/-- scmi_smc_conduit_method: resolve the conduit from the /psci node's
"method" property. Returns the status together with the new value of
the process-wide pointer invoke_scmi_smc_fn. If the pointer is already
set, return 0 without reading the property; if the property is absent,
minus ENXIO; "hvc" and "smc" select the respective invocation; any other
string yields -EINVAL with the pointer left unset. -/
def scmi_smc_conduit_method (invoke_fn : Option ConduitFn)
    (method : Option String) : Int × Option ConduitFn :=
  match invoke_fn with
  | some _ => (0, invoke_fn)
  | none =>
    match method with
    | none => (- ENXIO, none)
    | some m =>
      if m = "hvc" then (0, some ConduitFn.hvc)
      else if m = "smc" then (0, some ConduitFn.smc)
      else (-EINVAL, none)

/-- smc_chan_setup: returns the status, the (possibly updated) upper
channel, the (possibly updated) conduit pointer and the trace of
external calls. Mirrors the source: reject rx channels, allocate,
resolve the shmem phandle (upper channel's node first, then the
transport device's), translate and map it, read "smc-id" from the
transport device's node, find /psci, resolve the conduit, then fill in
the channel object and install it. -/
def smc_chan_setup (env : SetupEnv) (invoke_fn : Option ConduitFn)
    (cinfo : scmi_chan_info) (prot_id : Int) (tx : Bool) :
    Int × scmi_chan_info × Option ConduitFn × List Event :=
  if !tx then
    (-ENODEV, cinfo, invoke_fn, [])
  else if !env.alloc_ok then
    (-ENOMEM, cinfo, invoke_fn, [Event.allocChan])
  else
    let np : Option Nat :=
      match env.cdev_node.shmem with
      | some n => some n
      | none => env.dev_node.shmem
    let r0 := env.addr_to_resource np
    let ev1 := [Event.allocChan, Event.parseShmemPhandle, Event.addrToResource]
    if r0.1 ≠ 0 then
      (r0.1, cinfo, invoke_fn, ev1)
    else
      match env.ioremap r0.2.1 r0.2.2 with
      | none => (-EADDRNOTAVAIL, cinfo, invoke_fn, ev1 ++ [Event.ioremapCall])
      | some shmem =>
        let ev2 := ev1 ++ [Event.ioremapCall, Event.readSmcId]
        let rid := env.dev_node.smc_id
        if rid.1 < 0 then
          (rid.1, cinfo, invoke_fn, ev2)
        else
          match env.psci with
          | none => (-ENODEV, cinfo, invoke_fn, ev2 ++ [Event.findPsci])
          | some methodProp =>
            let ev3 := ev2 ++ [Event.findPsci, Event.resolveConduit]
            let rc := scmi_smc_conduit_method invoke_fn methodProp
            if rc.1 ≠ 0 then
              (rc.1, cinfo, rc.2, ev3)
            else
              let scmi_info : scmi_smc :=
                { cinfo := some cinfo.handle, shmem := shmem,
                  func_id := rid.2, prot_id := prot_id }
              (0, { cinfo with transport_info := some scmi_info }, rc.2, ev3)

/-- smc_chan_free: detach the transport_info pointer from the upper
channel, clear the channel object's back-reference, and call
scmi_free_channel(cinfo, data, id). none models the NULL dereference
that would occur on a channel that was never set up. -/
def smc_chan_free (id : Int) (cinfo : scmi_chan_info) (data : Nat) :
    Option (scmi_chan_info × scmi_smc × List Event × Int) :=
  match cinfo.transport_info with
  | none => none
  | some scmi_info =>
    let cinfo' := { cinfo with transport_info := none }
    let scmi_info' := { scmi_info with cinfo := none }
    some (cinfo', scmi_info', [Event.freeChannel cinfo'.handle data id], 0)

/-- smc_send_message: prepare the shared memory, invoke the conduit
with (func_id, prot_id, 0, 0, 0, 0, 0, 0), convert the returned
register value to int, clamp strictly positive values to 0, then
deliver scmi_rx_callback with the header read back from shared memory.
Returns the status, the upper channel, the memory state after the
conduit ran, and the trace. none models the NULL dereference on a
channel that was never set up. -/
def smc_send_message (env : Env) (cinfo : scmi_chan_info) (xfer : Nat)
    (mem : Nat) : Option (Int × scmi_chan_info × Nat × List Event) :=
  match cinfo.transport_info with
  | none => none
  | some scmi_info =>
    let mem1 := env.tx_prepare scmi_info.shmem xfer mem
    let call := env.conduit scmi_info.func_id (intToULong scmi_info.prot_id)
      0 0 0 0 0 0 mem1
    let ret0 : Int := toSigned32 call.1
    let ret := if ret0 > 0 then 0 else ret0
    some (ret, cinfo, call.2,
      [Event.txPrepare xfer,
       Event.conduitCall
         [scmi_info.func_id, intToULong scmi_info.prot_id, 0, 0, 0, 0, 0, 0],
       Event.rxCallback scmi_info.cinfo (env.read_header scmi_info.shmem call.2)])

/-- smc_mark_txdone: a no-op; the upper channel is returned unchanged. -/
def smc_mark_txdone (cinfo : scmi_chan_info) (ret : Int) : scmi_chan_info :=
  cinfo

/-- smc_fetch_response: delegate to shmem_fetch_response on the
channel's shmem view; returns the updated transfer object. -/
def smc_fetch_response (env : Env) (cinfo : scmi_chan_info) (xfer : Nat)
    (mem : Nat) : Option (scmi_chan_info × Nat × List Event) :=
  match cinfo.transport_info with
  | none => none
  | some scmi_info =>
    some (cinfo, env.fetch_response scmi_info.shmem xfer mem,
      [Event.fetchResp xfer])

/-- smc_poll_done: delegate to shmem_poll_done on the channel's shmem
view. -/
def smc_poll_done (env : Env) (cinfo : scmi_chan_info) (xfer : Nat)
    (mem : Nat) : Option (Bool × scmi_chan_info × List Event) :=
  match cinfo.transport_info with
  | none => none
  | some scmi_info =>
    some (env.poll_done scmi_info.shmem xfer mem, cinfo, [Event.pollCall xfer])

/-- The pair returned by the conduit inside smc_send_message: the
first result register and the memory state after the firmware ran. -/
def conduitResult (env : Env) (si : scmi_smc) (xfer mem : Nat) : Nat × Nat :=
  env.conduit si.func_id (intToULong si.prot_id) 0 0 0 0 0 0
    (env.tx_prepare si.shmem xfer mem)

/-- Unfolding of smc_send_message on a set-up channel. -/
theorem smc_send_message_unfold (env : Env) (cinfo : scmi_chan_info)
    (xfer mem : Nat) (si : scmi_smc) (h : cinfo.transport_info = some si) :
    smc_send_message env cinfo xfer mem =
      some (if toSigned32 (conduitResult env si xfer mem).1 > 0 then 0
              else toSigned32 (conduitResult env si xfer mem).1,
            cinfo, (conduitResult env si xfer mem).2,
            [Event.txPrepare xfer,
             Event.conduitCall
               [si.func_id, intToULong si.prot_id, 0, 0, 0, 0, 0, 0],
             Event.rxCallback si.cinfo
               (env.read_header si.shmem (conduitResult env si xfer mem).2)]) := by
  simp [smc_send_message, conduitResult, h]

/-- A concrete set-up transport channel (scenario A of the spec:
smc-id 0xC20000FE, protocol id 0x14, shmem view handle 42, upper
channel handle 1). -/
def chan0 : scmi_smc :=
  { cinfo := some 1, shmem := 42, func_id := 3254779902, prot_id := 20 }

/-- A concrete upper channel carrying chan0 as transport_info. -/
def cinfoTx : scmi_chan_info := { handle := 1, transport_info := some chan0 }

/-- A concrete upper channel that has not been set up yet. -/
def cinfo0 : scmi_chan_info := { handle := 1, transport_info := none }

/-- A concrete run-time environment whose conduit returns the
register value 2^32 + 2^31 = 6442450944 and whose oracles advance the
abstract memory state by one on each mutation. -/
def envRun0 : Env :=
  { tx_prepare := fun _ _ mem => mem + 1,
    conduit := fun _ _ _ _ _ _ _ _ mem => (6442450944, mem + 1),
    read_header := fun _ mem => mem,
    fetch_response := fun _ xfer _ => xfer,
    poll_done := fun _ _ _ => true }

/-- A concrete setup environment in which every step succeeds: the
shmem phandle resolves on the upper channel's node, the region maps,
the transport device's node carries smc-id 0xC20000FE, and /psci
carries method = "smc". -/
def envSetup0 : SetupEnv :=
  { alloc_ok := true,
    cdev_node := { shmem := some 7, smc_id := (-EINVAL, 0) },
    dev_node := { shmem := none, smc_id := (0, 3254779902) },
    addr_to_resource := fun _ => (0, (4096, 4096)),
    ioremap := fun _ _ => some 42,
    psci := some (some "smc") }

/-- Claim C9: smc_chan_available returns true for every pair of device
and index arguments, unconditionally. -/
theorem smc_chan_available_true (dev : Nat) (idx : Int) :
    smc_chan_available dev idx = true := rfl

/-- Claim C4: smc_chan_setup with tx = false fails with -ENODEV,
leaves the upper channel and the conduit pointer untouched, and makes
no external call at all (no allocation, no phandle lookup, no mapping,
no read of the shared region or of the conduit state): the event trace
is empty. -/
theorem smc_chan_setup_rx_rejected (env : SetupEnv)
    (invoke_fn : Option ConduitFn) (cinfo : scmi_chan_info) (prot_id : Int) :
    smc_chan_setup env invoke_fn cinfo prot_id false
      = (-ENODEV, cinfo, invoke_fn, []) := rfl

/-- Claim C3: conduit resolution is write-once and idempotent. If the
invocation pointer is already chosen, scmi_smc_conduit_method returns
0 without inspecting its argument; in particular resolving "smc" first
and then "hvc" succeeds both times and leaves the pointer at the
secure-monitor-call variant. -/
theorem conduit_method_write_once (f : ConduitFn) (m : Option String) :
    scmi_smc_conduit_method (some f) m = (0, some f)
  ∧ scmi_smc_conduit_method none (some "smc") = (0, some ConduitFn.smc)
  ∧ scmi_smc_conduit_method
      (scmi_smc_conduit_method none (some "smc")).2 (some "hvc")
      = (0, some ConduitFn.smc) :=
  ⟨rfl, by decide, by decide⟩

/-- Claim C5: with the conduit not yet chosen, scmi_smc_conduit_method
returns the negated ENXIO when the "method" property is absent, selects the
hypervisor-call variant for exactly "hvc" and the secure-monitor-call
variant for exactly "smc", and for any other string returns -EINVAL
leaving the invocation pointer unset. -/
theorem conduit_method_unset (m : String) :
    scmi_smc_conduit_method none none = (- ENXIO, none)
  ∧ scmi_smc_conduit_method none (some "hvc") = (0, some ConduitFn.hvc)
  ∧ scmi_smc_conduit_method none (some "smc") = (0, some ConduitFn.smc)
  ∧ (m ≠ "hvc" → m ≠ "smc" →
      scmi_smc_conduit_method none (some m) = (-EINVAL, none)) := by
  refine ⟨rfl, by decide, by decide, fun h1 h2 => ?_⟩
  simp [scmi_smc_conduit_method, h1, h2]

/-- Witness for C5 at the spec's scenario E: method = "trap" is
neither "hvc" nor "smc" and yields -EINVAL with the pointer unset. -/
theorem conduit_method_unset_witness :
    ("trap" : String) ≠ "hvc" ∧ ("trap" : String) ≠ "smc"
  ∧ scmi_smc_conduit_method none (some "trap") = (-EINVAL, none) :=
  ⟨by decide, by decide,
   (conduit_method_unset "trap").2.2.2 (by decide) (by decide)⟩

/-- Counterexample to claim C1 as stated: the conduit returns the
register value 6442450944 = 2^32 + 2^31, which is strictly positive
(also when interpreted as a signed 64-bit value), yet smc_send_message
reports -2147483648 rather than 0, because the value is first
truncated to the 32-bit int ret and only then compared against 0. -/
theorem send_message_status_counterexample :
    (0 : Int) < toSigned64 6442450944
  ∧ (smc_send_message envRun0 cinfoTx 0 0).map (fun out => out.1)
      = some (-2147483648)
  ∧ (-2147483648 : Int) ≠ 0 := by
  refine ⟨by decide, by decide, by decide⟩

/-- Claim C1 (amended): on a set-up channel, the status returned by
smc_send_message is determined by the low 32 bits of the conduit's
register-width return value reinterpreted as a signed 32-bit int (the
C conversion of unsigned long to int): if that int is strictly
positive the status is 0, if it is negative the status equals it, and
in every case the status is never a positive nonzero number. -/
theorem send_message_status (env : Env) (cinfo : scmi_chan_info)
    (xfer mem : Nat) (si : scmi_smc) (r : Nat)
    (h : cinfo.transport_info = some si)
    (hr : (conduitResult env si xfer mem).1 = r) :
    ((smc_send_message env cinfo xfer mem).map (fun out => out.1)
        = some (if toSigned32 r > 0 then 0 else toSigned32 r))
  ∧ (toSigned32 r > 0 →
      (smc_send_message env cinfo xfer mem).map (fun out => out.1) = some 0)
  ∧ (toSigned32 r < 0 →
      (smc_send_message env cinfo xfer mem).map (fun out => out.1)
        = some (toSigned32 r))
  ∧ (∀ v : Int,
      (smc_send_message env cinfo xfer mem).map (fun out => out.1) = some v →
        v ≤ 0) := by
  have E : (smc_send_message env cinfo xfer mem).map (fun out => out.1)
      = some (if toSigned32 r > 0 then 0 else toSigned32 r) := by
    rw [smc_send_message_unfold env cinfo xfer mem si h, hr]
    rfl
  refine ⟨E, fun hpos => ?_, fun hneg => ?_, fun v hv => ?_⟩
  · rw [E, if_pos hpos]
  · rw [E, if_neg (by omega)]
  · rw [E] at hv
    have hv' := Option.some_inj.mp hv
    by_cases hc : toSigned32 r > 0
    · rw [if_pos hc] at hv'
      omega
    · rw [if_neg hc] at hv'
      omega

/-- Witness for the amended C1: with the concrete environment whose
conduit returns 6442450944, the truncated int is negative and the
status equals it. -/
theorem send_message_status_witness :
    cinfoTx.transport_info = some chan0
  ∧ (conduitResult envRun0 chan0 0 0).1 = 6442450944
  ∧ (toSigned32 6442450944 < 0 →
      (smc_send_message envRun0 cinfoTx 0 0).map (fun out => out.1)
        = some (toSigned32 6442450944)) :=
  ⟨rfl, rfl,
   (send_message_status envRun0 cinfoTx 0 0 chan0 6442450944 rfl rfl).2.2.1⟩

/-- Claim C2: on a set-up channel, smc_send_message invokes
scmi_rx_callback exactly once, whatever the conduit returned, and it
passes the channel's stored upper-channel handle together with the
header read back from shared memory after the conduit call returned. -/
theorem send_message_rx_callback (env : Env) (cinfo : scmi_chan_info)
    (xfer mem : Nat) (si : scmi_smc)
    (h : cinfo.transport_info = some si) :
    ∀ ret c' m' ev,
      smc_send_message env cinfo xfer mem = some (ret, c', m', ev) →
        ev.filter Event.isRx
          = [Event.rxCallback si.cinfo (env.read_header si.shmem m')] := by
  intro ret c' m' ev hout
  rw [smc_send_message_unfold env cinfo xfer mem si h] at hout
  simp only [Option.some.injEq, Prod.mk.injEq] at hout
  obtain ⟨h1, h2, h3, h4⟩ := hout
  subst h3
  subst h4
  rfl

/-- Witness for C2 at a concrete input: the trace holds exactly one
receive callback carrying chan0's upper-channel handle and the header
read from the post-conduit memory state. -/
theorem send_message_rx_callback_witness :
    cinfoTx.transport_info = some chan0
  ∧ [Event.txPrepare 0,
     Event.conduitCall [3254779902, 20, 0, 0, 0, 0, 0, 0],
     Event.rxCallback (some 1) 2].filter Event.isRx
      = [Event.rxCallback chan0.cinfo (envRun0.read_header chan0.shmem 2)] :=
  ⟨rfl,
   send_message_rx_callback envRun0 cinfoTx 0 0 chan0 rfl
     (-2147483648) cinfoTx 2
     [Event.txPrepare 0,
      Event.conduitCall [3254779902, 20, 0, 0, 0, 0, 0, 0],
      Event.rxCallback (some 1) 2] (by decide)⟩

/-- Helper: the conversion of a C int to unsigned long is the identity
on representable non-negative values. -/
theorem intToULong_of_nonneg (i : Int) (h0 : 0 ≤ i) (h1 : i < 2 ^ 64) :
    intToULong i = i.toNat := by
  unfold intToULong
  rw [Int.emod_eq_of_lt h0 h1]

/-- Claim C6: on a set-up channel whose stored protocol id is in
range, smc_send_message invokes the conduit exactly once, with exactly
eight arguments: argument 0 is the channel's stored call-function id,
argument 1 the stored protocol id, and arguments 2 through 7 are 0;
the model consumes only the first result register by construction. -/
theorem send_message_conduit_args (env : Env) (cinfo : scmi_chan_info)
    (xfer mem : Nat) (si : scmi_smc)
    (h : cinfo.transport_info = some si)
    (hp0 : 0 ≤ si.prot_id) (hp1 : si.prot_id < 2 ^ 64) :
    ∀ ret c' m' ev,
      smc_send_message env cinfo xfer mem = some (ret, c', m', ev) →
        ev.filter Event.isConduit
            = [Event.conduitCall
                [si.func_id, si.prot_id.toNat, 0, 0, 0, 0, 0, 0]]
        ∧ ((si.prot_id.toNat : Int) = si.prot_id)
        ∧ [si.func_id, si.prot_id.toNat, 0, 0, 0, 0, 0, 0].length = 8 := by
  intro ret c' m' ev hout
  rw [smc_send_message_unfold env cinfo xfer mem si h] at hout
  simp only [Option.some.injEq, Prod.mk.injEq] at hout
  obtain ⟨h1, h2, h3, h4⟩ := hout
  subst h4
  refine ⟨?_, Int.toNat_of_nonneg hp0, rfl⟩
  rw [intToULong_of_nonneg si.prot_id hp0 hp1]
  rfl

/-- Witness for C6 at a concrete input: chan0 stores protocol id 20,
and the single conduit-call event carries the eight arguments
(0xC20000FE, 20, 0, 0, 0, 0, 0, 0). -/
theorem send_message_conduit_args_witness :
    cinfoTx.transport_info = some chan0
  ∧ (0 : Int) ≤ chan0.prot_id ∧ chan0.prot_id < 2 ^ 64
  ∧ ([Event.txPrepare 0,
      Event.conduitCall [3254779902, 20, 0, 0, 0, 0, 0, 0],
      Event.rxCallback (some 1) 2].filter Event.isConduit
        = [Event.conduitCall
            [chan0.func_id, chan0.prot_id.toNat, 0, 0, 0, 0, 0, 0]]
      ∧ ((chan0.prot_id.toNat : Int) = chan0.prot_id)
      ∧ [chan0.func_id, chan0.prot_id.toNat, 0, 0, 0, 0, 0, 0].length = 8) :=
  ⟨rfl, by decide, by decide,
   send_message_conduit_args envRun0 cinfoTx 0 0 chan0 rfl (by decide)
     (by decide) (-2147483648) cinfoTx 2
     [Event.txPrepare 0,
      Event.conduitCall [3254779902, 20, 0, 0, 0, 0, 0, 0],
      Event.rxCallback (some 1) 2] (by decide)⟩

/-- Claim C7: on a set-up channel, smc_chan_free detaches the
transport-private handle from the upper channel, clears the channel
object's back-reference, returns 0, and calls the upper layer's
channel-release callback exactly once with the same upper channel,
the same opaque data and the same id that were supplied. -/
theorem chan_free_spec (id : Int) (cinfo : scmi_chan_info) (data : Nat)
    (si : scmi_smc) (h : cinfo.transport_info = some si) :
    ∃ c' si',
      smc_chan_free id cinfo data
          = some (c', si', [Event.freeChannel cinfo.handle data id], 0)
      ∧ c'.transport_info = none
      ∧ si'.cinfo = none
      ∧ c'.handle = cinfo.handle := by
  refine ⟨{ cinfo with transport_info := none }, { si with cinfo := none },
    ?_, rfl, rfl, rfl⟩
  simp [smc_chan_free, h]

/-- Witness for C7 at a concrete input: freeing the set-up channel
cinfoTx with id 3 and opaque data 9. -/
theorem chan_free_spec_witness :
    ∃ c' si',
      smc_chan_free 3 cinfoTx 9
          = some (c', si', [Event.freeChannel cinfoTx.handle 9 3], 0)
      ∧ c'.transport_info = none
      ∧ si'.cinfo = none
      ∧ c'.handle = cinfoTx.handle :=
  chan_free_spec 3 cinfoTx 9 chan0 rfl

/-- Claim C8: after a successful setup, none of smc_send_message,
smc_mark_txdone, smc_fetch_response and smc_poll_done modifies the
channel object installed on the upper channel: the transport_info
pointer still holds the very same scmi_smc value (hence the same
shmem view, call-function id, protocol id and upper-channel
back-reference) afterwards. -/
theorem chan_attrs_immutable (env : Env) (cinfo : scmi_chan_info)
    (xfer mem : Nat) (r : Int) (si : scmi_smc)
    (h : cinfo.transport_info = some si) :
    (∀ out, smc_send_message env cinfo xfer mem = some out →
        out.2.1.transport_info = some si)
  ∧ (smc_mark_txdone cinfo r).transport_info = some si
  ∧ (∀ out, smc_fetch_response env cinfo xfer mem = some out →
        out.1.transport_info = some si)
  ∧ (∀ out, smc_poll_done env cinfo xfer mem = some out →
        out.2.1.transport_info = some si) := by
  refine ⟨fun out hout => ?_, h, fun out hout => ?_, fun out hout => ?_⟩
  · rw [smc_send_message_unfold env cinfo xfer mem si h] at hout
    simp only [Option.some.injEq] at hout
    rw [← hout]
    exact h
  · simp only [smc_fetch_response, h, Option.some.injEq] at hout
    rw [← hout]
    exact h
  · simp only [smc_poll_done, h, Option.some.injEq] at hout
    rw [← hout]
    exact h

/-- Witness for C8 at a concrete input: running all four operations on
the set-up channel cinfoTx leaves chan0 installed unchanged. -/
theorem chan_attrs_immutable_witness :
    cinfoTx.transport_info = some chan0
  ∧ (smc_mark_txdone cinfoTx 0).transport_info = some chan0 :=
  ⟨rfl, (chan_attrs_immutable envRun0 cinfoTx 0 0 0 chan0 rfl).2.1⟩

/-- Claim C10: the call-function identifier is read exclusively from
the transport device's configuration node. First, replacing the
"smc-id" reading of the upper channel's node by anything at all never
changes what smc_chan_setup does — in particular not in the case
where the shmem reference resolved from the upper channel's node.
Second, whenever setup succeeds, the installed channel object's
func_id is exactly the value the transport device's node yields. -/
theorem smc_id_read_from_dev_node (env : SetupEnv) (sid : Int × Nat)
    (invoke_fn : Option ConduitFn) (cinfo : scmi_chan_info)
    (prot_id : Int) (tx : Bool) :
    (smc_chan_setup
        { env with cdev_node := { env.cdev_node with smc_id := sid } }
        invoke_fn cinfo prot_id tx
      = smc_chan_setup env invoke_fn cinfo prot_id tx)
  ∧ (∀ r c' s' ev,
      smc_chan_setup env invoke_fn cinfo prot_id tx = (r, c', s', ev) →
      r = 0 →
      ∃ si, c'.transport_info = some si
        ∧ si.func_id = env.dev_node.smc_id.2) := by
  constructor
  · rfl
  · intro r c' s' ev hEq hz
    simp only [smc_chan_setup] at hEq
    split at hEq
    · injection hEq with h1 h2
      subst h1
      exact absurd hz (by decide)
    · split at hEq
      · injection hEq with h1 h2
        subst h1
        exact absurd hz (by decide)
      · split at hEq
        · rename_i hr0
          injection hEq with h1 h2
          subst h1
          exact absurd hz hr0
        · split at hEq
          · injection hEq with h1 h2
            subst h1
            exact absurd hz (by decide)
          · split at hEq
            · rename_i hrid
              injection hEq with h1 h2
              subst h1
              omega
            · split at hEq
              · injection hEq with h1 h2
                subst h1
                exact absurd hz (by decide)
              · split at hEq
                · rename_i hrc
                  injection hEq with h1 h2
                  subst h1
                  exact absurd hz hrc
                · injection hEq with h1 h2
                  injection h2 with h2 h3
                  subst h2
                  exact ⟨_, rfl, rfl⟩

/-- Witness for C10 at a concrete input: setting up a channel in the
all-succeeding environment (whose shmem phandle resolves on the upper
channel's node) installs func_id 0xC20000FE, the value of the
transport device node's smc-id property. -/
theorem smc_id_read_from_dev_node_witness :
    (smc_chan_setup envSetup0 none cinfo0 20 true).1 = 0
  ∧ ∃ si, (smc_chan_setup envSetup0 none cinfo0 20 true).2.1.transport_info
        = some si
      ∧ si.func_id = envSetup0.dev_node.smc_id.2 := by
  refine ⟨by decide, ?_⟩
  exact (smc_id_read_from_dev_node envSetup0 (0, 0) none cinfo0 20 true).2
    (smc_chan_setup envSetup0 none cinfo0 20 true).1
    (smc_chan_setup envSetup0 none cinfo0 20 true).2.1
    (smc_chan_setup envSetup0 none cinfo0 20 true).2.2.1
    (smc_chan_setup envSetup0 none cinfo0 20 true).2.2.2
    rfl (by decide)
